import Mathlib

/-!
Verification of the ai-tutor-backend session engine.

This file gives a shallow embedding of the question normalizer
(`TutorOrchestrator._parse_question_from_llm`), the deterministic answer
checker (`TutorOrchestrator._check_answer`), the session statistics updates
(`SessionManager.update_stats` and the inline updates in the orchestrator),
and the orchestrator operations (`start_diagnostic`, `submit_diagnostic_answer`,
`generate_study_plan`, `start_teaching_concept`, `submit_practice_answer`,
`get_hint`, `wrap_up_session`) from `services/tutor_orchestrator.py` and
`services/session_manager.py`, together with theorems settling the spec
claims about them.

Modelling conventions:
- Python strings are Lean `String`s; the Python string methods used by the
  source (`lower`, `strip`, `startswith`, `in`, `split(sep, 1)`, `[:1]`) are
  re-implemented over the character list in the `Py` namespace so that they
  agree with Python on the relevant (ASCII) inputs and reduce in the kernel.
- Python floats are modelled as `ℚ`.  The only float values the claims touch
  (0.25, 0.75, 4.0, 0.01, 3.995, 4.005, 4.02) and the comparisons between
  them are exact in binary floating point, so the rational model agrees with
  the float semantics at every point used in a theorem.
- `float(x)` applied to a submitted answer either succeeds or raises; a
  submission is therefore modelled as `Option ℚ` (`none` = unparsable).
- The external reasoning service returns, per call, either a structured
  payload or a failure (`generate_sync` yields `success=False` both when the
  HTTP call raises and when no JSON can be extracted).  A service outcome is
  modelled as `Option R` for the per-operation payload type `R`; `none`
  covers both failure modes.
- Wall-clock fields (`created_at`, `updated_at`, `started_at`,
  `duration_minutes`) and the purely presentational `display` list are not
  modelled; no claim depends on them.
- An operation returns the pair (persisted session record after the request,
  API response).  The source mutates an in-memory copy and persists it only
  by the final `save_session`; on an early error return the persisted record
  is the pre-request one, which the embedding returns unchanged.
-/

namespace AITutor

/-! ## Python string primitives -/

namespace Py

/-- Python `str.lower()` (ASCII case mapping, as used by the source). -/
def lower (s : String) : String := ⟨s.data.map Char.toLower⟩

/-- Python `str.strip()`: drop leading and trailing whitespace. -/
def strip (s : String) : String :=
  ⟨((s.data.dropWhile Char.isWhitespace).reverse.dropWhile Char.isWhitespace).reverse⟩

def isPrefixL : List Char → List Char → Bool
  | [], _ => true
  | _ :: _, [] => false
  | a :: as, b :: bs => a == b && isPrefixL as bs

/-- Python `s.startswith(p)`. -/
def startsWith (s p : String) : Bool := isPrefixL p.data s.data

def occursInL (pat : List Char) : List Char → Bool
  | [] => pat.isEmpty
  | c :: rest => isPrefixL pat (c :: rest) || occursInL pat rest

/-- Python `pat in s` (substring containment). -/
def occursIn (pat s : String) : Bool := occursInL pat.data s.data

/-- Python `s[:1]`. -/
def takeOne (s : String) : String := ⟨s.data.take 1⟩

/-- Split at the first occurrence of `sep` (Python `s.split(sep, 1)` for a
one-character separator); `none` when `sep` does not occur in `s`. -/
def splitOnceL (sep : Char) : List Char → Option (List Char × List Char)
  | [] => none
  | c :: rest =>
    if c = sep then some ([], rest)
    else (splitOnceL sep rest).map fun p => (c :: p.1, p.2)

def splitOnce (sep : Char) (s : String) : Option (String × String) :=
  (splitOnceL sep s.data).map fun p => (⟨p.1⟩, ⟨p.2⟩)

end Py

/-! ## Question entities (models/questions.py), restricted to the fields the
claims touch -/

structure MultipleChoiceOption where
  id : String
  text : String
  is_correct : Bool := false
deriving DecidableEq

structure MultipleChoiceQuestion where
  question_text : String := ""
  options : List MultipleChoiceOption := []
  correct_option_id : String
deriving DecidableEq

structure TrueFalseQuestion where
  statement : String := ""
  correct_answer : Bool
deriving DecidableEq

structure NumericQuestion where
  question_text : String := ""
  correct_answer : ℚ
  tolerance : ℚ := 1/100
deriving DecidableEq

structure FillBlankQuestion where
  question_text : String := ""
  correct_answers : List String
deriving DecidableEq

/-! ## Question normalizer (`TutorOrchestrator._parse_question_from_llm`) -/

/-- Option label `chr(97 + i)`: `a`, `b`, `c`, ... -/
def optionId (i : ℕ) : String := ⟨[Char.ofNat (97 + i)]⟩

/-- Display text of a raw option: the part after the first `)` stripped, when
a `)` occurs, else the raw option (source lines 60-62). -/
def mcOptText (opt : String) : String :=
  match Py.splitOnce ')' opt with
  | some p => Py.strip p.2
  | none => opt

/-- The per-option correctness test of the normalizer (source lines 64-68):
the raw option starts with the first character of the declared correct
answer, or the display text equals it, or it occurs in the raw option —
everything case-insensitively. -/
def mcOptionMatches (correct opt : String) : Bool :=
  Py.startsWith (Py.lower opt) (Py.takeOne (Py.lower correct)) ||
  Py.lower (mcOptText opt) == Py.lower correct ||
  Py.occursIn (Py.lower correct) (Py.lower opt)

/-- The loop of source lines 53-71: `correct_id` starts at `"a"` and is
overwritten by the id of every option that matches. -/
def mcResolveGo (correct : String) : ℕ → String → List String → String
  | _, acc, [] => acc
  | i, acc, opt :: rest =>
    mcResolveGo correct (i + 1) (if mcOptionMatches correct opt then optionId i else acc) rest

/-- Resolved `correct_option_id` for a raw multiple-choice question. -/
def mcResolveCorrectId (options : List String) (correct : String) : String :=
  mcResolveGo correct 0 "a" options

/-- The parsed option list built by the same loop (source lines 73-77). -/
def mcParsedOptions (options : List String) (correct : String) : List MultipleChoiceOption :=
  options.enum.map fun p =>
    { id := optionId p.1, text := mcOptText p.2, is_correct := mcOptionMatches correct p.2 }

/-- True/false branch of the normalizer (source lines 87-88): the declared
correct answer is truthy iff its lowercase form is `true`, `yes` or `t`. -/
def tfParseCorrect (correct : String) : Bool :=
  Py.lower correct == "true" || Py.lower correct == "yes" || Py.lower correct == "t"

/-- Numeric/equation branch (source lines 97-100): `float(...)` with fallback
`0.0` on parse failure. -/
def numericParseCorrect (correct : Option ℚ) : ℚ := correct.getD 0

/-- The raw correct-answer field of a fill-blank question may arrive as a
single string or as a list of strings. -/
inductive StrOrList where
  | str (s : String)
  | list (l : List String)
deriving DecidableEq

/-- Fill-blank branch (source lines 123-124): a string becomes a singleton
list, a list is passed through unchanged. -/
def fbParseAnswers : StrOrList → List String
  | .str s => [s]
  | .list l => l

/-- The `FillBlankQuestion` produced by the normalizer (source lines 126-130). -/
def fbNormalize (correct : StrOrList) (question_text : String) : FillBlankQuestion :=
  { question_text := question_text, correct_answers := fbParseAnswers correct }

/-! ## Answer checker (`TutorOrchestrator._check_answer`) -/

/-- Multiple-choice check (source lines 156-159). -/
def checkMultipleChoice (q : MultipleChoiceQuestion) (answer : String) : Bool × ℚ × String :=
  let ic := Py.lower answer == Py.lower q.correct_option_id
  (ic, if ic then 1 else 0, q.correct_option_id)

/-- The boolean coercion applied to a submitted true/false answer (source
line 162). -/
def tfCoerceAnswer (answer : String) : Bool :=
  Py.lower answer == "true" || Py.lower answer == "yes" ||
  Py.lower answer == "t" || Py.lower answer == "1"

/-- True/false check (source lines 161-164); the canonical answer is
`str(question.correct_answer)`. -/
def checkTrueFalse (q : TrueFalseQuestion) (answer : String) : Bool × ℚ × String :=
  let ic := tfCoerceAnswer answer == q.correct_answer
  (ic, if ic then 1 else 0, if q.correct_answer then "True" else "False")

/-- Numeric / equation check (source lines 166-172): `float(answer)` either
parses (`some v`) or raises, in which case the `except` branch returns
incorrect with zero credit. -/
def checkNumeric (q : NumericQuestion) (answer : Option ℚ) : Bool × ℚ × ℚ :=
  match answer with
  | some v =>
    let ic := decide (|v - q.correct_answer| ≤ q.tolerance)
    (ic, if ic then 1 else 0, q.correct_answer)
  | none => (false, 0, q.correct_answer)

/-- Fill-blank check (source lines 174-179): trimmed case-insensitive compare
against each accepted literal, first match wins; otherwise the result quotes
`correct_answers[0]`, which raises `IndexError` (modelled as `none`) when the
list is empty. -/
def checkFillBlank (q : FillBlankQuestion) (answer : String) : Option (Bool × ℚ × String) :=
  let s := Py.lower (Py.strip answer)
  match q.correct_answers.find? (fun c => s == Py.lower (Py.strip c)) with
  | some c => some (true, 1, c)
  | none =>
    match q.correct_answers with
    | [] => none
    | c :: _ => some (false, 0, c)

/-! ## Session data model (models/session.py), restricted to the fields the
claims touch -/

inductive CurrentPhase where
  | topic_selection | diagnostic | plan_generation | teaching
  | assessment | reteach | wrapup
deriving DecidableEq

inductive SessionStatus where
  | active | paused | completed | abandoned
deriving DecidableEq

inductive PhaseStatus where
  | pending | in_progress | completed | skipped
deriving DecidableEq

inductive ConceptStatus where
  | not_started | learning | mastered | needs_review | skipped
deriving DecidableEq

structure DiagnosticQuestion where
  question_id : String
  question_text : String := ""
  question_type : String := "short_answer"
  difficulty : String := "medium"
  concept_tested : String := "general"
  student_answer : Option String := none
  correct_answer : String := ""
  is_correct : Option Bool := none
  mistake_analysis : Option String := none
deriving DecidableEq

structure DiagnosticAssessment where
  overall_level : String
  score : ℚ
  recommended_start_concept : String
deriving DecidableEq

structure DiagnosticPhase where
  status : PhaseStatus := .pending
  questions : List DiagnosticQuestion := []
  assessment : Option DiagnosticAssessment := none
deriving DecidableEq

structure ConceptPlan where
  concept_id : String
  name : String := ""
  status : ConceptStatus := .not_started
  attempts : ℕ := 0
  mastery_score : ℚ := 0
deriving DecidableEq

structure StudyPlan where
  total_concepts : ℕ := 0
  concepts : List ConceptPlan := []
  current_concept_index : ℕ := 0
deriving DecidableEq

structure TeachingLogEntry where
  concept_id : String
  entry_type : String
  ai_message : String := ""
  student_response : Option String := none
  is_correct : Option Bool := none
deriving DecidableEq

structure Message where
  role : String
  content : String
deriving DecidableEq

structure ConversationContext where
  total_messages : ℕ := 0
  recent_messages : List Message := []
deriving DecidableEq

structure SessionStats where
  questions_attempted : ℕ := 0
  questions_correct : ℕ := 0
  accuracy_rate : ℚ := 0
  hints_used : ℕ := 0
  concepts_taught : ℕ := 0
  concepts_mastered : ℕ := 0
  xp_earned : ℤ := 0
deriving DecidableEq

structure Session where
  session_id : String := ""
  status : SessionStatus := .active
  current_phase : CurrentPhase := .topic_selection
  diagnostic : DiagnosticPhase := {}
  study_plan : StudyPlan := {}
  teaching_log : List TeachingLogEntry := []
  conversation : ConversationContext := {}
  stats : SessionStats := {}
deriving DecidableEq

/-- config.py: `Settings.MAX_DIAGNOSTIC_QUESTIONS` (default 6). -/
def MAX_DIAGNOSTIC_QUESTIONS : ℕ := 6

/-- The response envelope every operation returns (models/schemas.py
`APIResponse`); the presentational `display` list is not modelled. -/
structure APIResponse where
  success : Bool
  current_phase : CurrentPhase
  error : Option String := none
deriving DecidableEq

/-! ## SessionManager (services/session_manager.py) -/

/-- Embeds `SessionManager.add_message`: append to the conversation buffer and trim
it to the last 10 messages. -/
def addMessage (s : Session) (role content : String) : Session :=
  let msgs := s.conversation.recent_messages ++ [⟨role, content⟩]
  { s with conversation :=
      { total_messages := s.conversation.total_messages + 1,
        recent_messages := if msgs.length > 10 then msgs.drop (msgs.length - 10) else msgs } }

/-- Embeds `SessionManager.update_stats`: add the deltas, then recompute
`accuracy_rate` only when `questions_attempted > 0`. -/
def updateStats (s : Session) (da dc dh : ℕ) (dxp : ℤ) : Session :=
  let a := s.stats.questions_attempted + da
  let c := s.stats.questions_correct + dc
  let st := { s.stats with
    questions_attempted := a,
    questions_correct := c,
    hints_used := s.stats.hints_used + dh,
    xp_earned := s.stats.xp_earned + dxp }
  let st := if 0 < a then { st with accuracy_rate := (c : ℚ) / (a : ℚ) } else st
  { s with stats := st }

/-! ## Service payloads

`LLMService.generate_sync` returns `success=False` both when the API call
raises and when no JSON object can be extracted from the reply; an operation
receives its structured payload only in the success case.  Each operation is
therefore parameterised by an `Option` of its payload type, with `none`
covering "call failed or payload unparsable". -/

/-- The fields of a question dict produced by the service, with the `.get`
defaults of the source applied. -/
structure RawQuestionData where
  question_id : String := ""
  question_text : String := ""
  question_type : String := "short_answer"
  difficulty : String := "medium"
  concept_tested : String := "general"
  correct_answer : String := ""
deriving DecidableEq

/-- Payload of the `start_diagnostic` generation call. -/
structure DiagStartResponse where
  question : RawQuestionData := {}
  message_to_student : String := "Lets start with a warm-up question!"
deriving DecidableEq

/-- Payload of the `submit_diagnostic_answer` evaluation call. -/
structure DiagEvalResponse where
  is_correct : Bool := false
  misconception : Option String := none
  feedback_to_student : String := ""
  diagnostic_complete : Bool := false
  overall_level : String := "beginner"
  recommended_start_concept : String := "basics"
  next_question : Option RawQuestionData := none
deriving DecidableEq

/-- One concept of the `generate_study_plan` payload. -/
structure RawConceptData where
  concept_id : String
  name : String := ""
deriving DecidableEq

/-- Payload of the `generate_study_plan` call. -/
structure PlanResponse where
  concepts : List RawConceptData := []
  message_to_student : String := "Your personalized study plan is ready!"
deriving DecidableEq

/-- Payload of the `start_teaching_concept` call. -/
structure TeachResponse where
  teaching_content : String := ""
  encouragement : String := ""
  practice_question : Option RawQuestionData := none
deriving DecidableEq

/-- Payload of the `submit_practice_answer` evaluation call. -/
structure PracticeEvalResponse where
  is_correct : Bool := false
  feedback : String := ""
  xp_earned : Option ℤ := none
  next_action : String := "next_question"
  hint : String := "Think about it step by step..."
  next_question : Option RawQuestionData := none
deriving DecidableEq

/-! ## Orchestrator operations (services/tutor_orchestrator.py)

Each returns (persisted session, API response). -/

/-- Replace the element at index `i` (Python mutation of a list element). -/
def modifyAt (l : List α) (i : ℕ) (f : α → α) : List α :=
  match l, i with
  | [], _ => []
  | a :: as, 0 => f a :: as
  | a :: as, n + 1 => a :: modifyAt as n f

/-- Write back the (mutated) current concept. -/
def setConcept (sp : StudyPlan) (i : ℕ) (c : ConceptPlan) : StudyPlan :=
  { sp with concepts := modifyAt sp.concepts i (fun _ => c) }

/-- The DiagnosticQuestion record built from a raw question dict
(source lines 230-237 and 406-413). -/
def recordOf (q : RawQuestionData) : DiagnosticQuestion :=
  { question_id := q.question_id, question_text := q.question_text,
    question_type := q.question_type, difficulty := q.difficulty,
    concept_tested := q.concept_tested, correct_answer := q.correct_answer }

/-- The `wrap_up_session` state change (source lines 847-907): the session is
always moved to `wrapup` and marked completed, saved, and the response is a
success whether or not the summary-generation call succeeds (`llmOk` only
changes the display items). -/
def wrapUpSessionCore (st : Session) : Session :=
  { st with current_phase := .wrapup, status := .completed }

def wrapUpSession (st : Session) (_llmOk : Bool) : Session × APIResponse :=
  (wrapUpSessionCore st, { success := true, current_phase := .wrapup })

/-- Embeds `start_diagnostic` (source lines 187-278). -/
def startDiagnostic (st : Session) (llm : Option DiagStartResponse) : Session × APIResponse :=
  match llm with
  | none =>
    -- the phase/status mutations of lines 201-203 precede the service call
    -- but are only in memory; the early return skips save_session
    (st, { success := false, current_phase := .diagnostic, error := some "service error" })
  | some resp =>
    let s := { st with current_phase := .diagnostic,
                       diagnostic := { st.diagnostic with status := .in_progress } }
    let s := { s with diagnostic :=
      { s.diagnostic with questions := s.diagnostic.questions ++ [recordOf resp.question] } }
    let s := addMessage s "assistant" resp.message_to_student
    (s, { success := true, current_phase := .diagnostic })

/-- Source lines 298-307: locate the answered question by id, falling back to
the most recently recorded question, or to nothing when none exist. -/
def findDiagIndex (qs : List DiagnosticQuestion) (qid : String) : Option ℕ :=
  match qs.findIdx? (fun q => q.question_id == qid) with
  | some i => some i
  | none => if qs.isEmpty then none else some (qs.length - 1)

/-- The `correct_answer` handed to the evaluation prompt (source line 319):
that of the located question, or `""` when no question was located. -/
def diagEvalCorrectAnswer (st : Session) (qid : String) : String :=
  match findDiagIndex st.diagnostic.questions qid with
  | some i => ((st.diagnostic.questions[i]?).map (·.correct_answer)).getD ""
  | none => ""

/-- Embeds `submit_diagnostic_answer` (source lines 280-443). -/
def submitDiagnosticAnswer (st : Session) (qid answer : String)
    (llm : Option DiagEvalResponse) : Session × APIResponse :=
  let qidx := findDiagIndex st.diagnostic.questions qid
  match llm with
  | none =>
    -- lines 326-333: early return before save_session
    (st, { success := false, current_phase := .diagnostic, error := some "service error" })
  | some resp =>
    -- line 310: current_q.student_answer = str(answer)
    let s := match qidx with
      | some i => { st with diagnostic := { st.diagnostic with
          questions := modifyAt st.diagnostic.questions i
            (fun q => { q with student_answer := some answer }) } }
      | none => st
    let s := addMessage s "user" answer
    -- lines 339-341: evaluation recorded on the question
    let s := match qidx with
      | some i => { s with diagnostic := { s.diagnostic with
          questions := modifyAt s.diagnostic.questions i
            (fun q => { q with is_correct := some resp.is_correct,
                               mistake_analysis := resp.misconception }) } }
      | none => s
    -- lines 344-347: stats update
    let attempted := s.stats.questions_attempted + 1
    let correct := s.stats.questions_correct + (if resp.is_correct then 1 else 0)
    let s := { s with stats := { s.stats with
      questions_attempted := attempted,
      questions_correct := correct,
      accuracy_rate := (correct : ℚ) / ((max 1 attempted : ℕ) : ℚ) } }
    let s := addMessage s "assistant" resp.feedback_to_student
    -- line 356: completion test
    if resp.diagnostic_complete || s.diagnostic.questions.length ≥ MAX_DIAGNOSTIC_QUESTIONS then
      let s := { s with
        diagnostic := { s.diagnostic with
          status := .completed,
          assessment := some { overall_level := resp.overall_level,
                               score := s.stats.accuracy_rate,
                               recommended_start_concept := resp.recommended_start_concept } },
        current_phase := .plan_generation }
      (s, { success := true, current_phase := .plan_generation })
    else
      let s := match resp.next_question with
        | some nq => { s with diagnostic :=
            { s.diagnostic with questions := s.diagnostic.questions ++ [recordOf nq] } }
        | none => s
      (s, { success := true, current_phase := s.current_phase })

/-- Embeds `generate_study_plan` (source lines 445-542). -/
def generateStudyPlan (st : Session) (llm : Option PlanResponse) : Session × APIResponse :=
  match llm with
  | none =>
    (st, { success := false, current_phase := .plan_generation, error := some "service error" })
  | some resp =>
    let concepts := resp.concepts.map fun c =>
      ({ concept_id := c.concept_id, name := c.name } : ConceptPlan)
    let s := { st with
      study_plan := { total_concepts := concepts.length, concepts := concepts,
                      current_concept_index := 0 },
      current_phase := .teaching }
    let s := addMessage s "assistant" resp.message_to_student
    (s, { success := true, current_phase := .teaching })

/-- Embeds `start_teaching_concept` (source lines 544-652). -/
def startTeachingConcept (st : Session) (llm : Option TeachResponse) : Session × APIResponse :=
  if st.study_plan.concepts.isEmpty then
    (st, { success := false, current_phase := .teaching, error := some "No study plan" })
  else
    let idx := st.study_plan.current_concept_index
    match st.study_plan.concepts[idx]? with
    | none =>
      -- line 567-569: all concepts done, wrap up (a fresh load: nothing saved yet)
      (wrapUpSessionCore st, { success := true, current_phase := .wrapup })
    | some concept =>
      match llm with
      | none =>
        (st, { success := false, current_phase := .teaching, error := some "service error" })
      | some resp =>
        let concept1 := { concept with status := ConceptStatus.learning, attempts := 0 }
        let s := { st with study_plan := setConcept st.study_plan idx concept1 }
        let s := addMessage s "assistant" resp.teaching_content
        let entry : TeachingLogEntry :=
          { concept_id := concept.concept_id, entry_type := "teaching",
            ai_message := resp.teaching_content }
        let s := { s with teaching_log := s.teaching_log ++ [entry] }
        let s := match resp.practice_question with
          | some q =>
            let e : TeachingLogEntry :=
              { concept_id := concept.concept_id, entry_type := "check_understanding",
                ai_message := q.question_text }
            { s with teaching_log := s.teaching_log ++ [e] }
          | none => s
        let s := { s with stats := { s.stats with concepts_taught := s.stats.concepts_taught + 1 } }
        (s, { success := true, current_phase := .teaching })

/-- Source lines 681-687: the text of the most recent question entry in the
teaching log. -/
def lastQuestionText (log : List TeachingLogEntry) : String :=
  match log.reverse.find?
      (fun e => e.entry_type == "check_understanding" || e.entry_type == "assessment") with
  | some e => e.ai_message
  | none => ""

/-- Embeds `submit_practice_answer` (source lines 654-813). -/
def submitPracticeAnswer (st : Session) (answer : String)
    (llm : Option PracticeEvalResponse) : Session × APIResponse :=
  let idx := st.study_plan.current_concept_index
  match st.study_plan.concepts[idx]? with
  | none =>
    -- lines 674-675: no current concept, wrap up (nothing saved yet)
    (wrapUpSessionCore st, { success := true, current_phase := .wrapup })
  | some concept0 =>
    match llm with
    | none =>
      -- lines 702-709: early return before save_session (the attempts
      -- increment of line 677 is only in memory)
      (st, { success := false, current_phase := .teaching, error := some "service error" })
    | some resp =>
      let concept1 := { concept0 with attempts := concept0.attempts + 1 }
      let s := { st with study_plan := setConcept st.study_plan idx concept1 }
      let s := addMessage s "user" answer
      let question_text := lastQuestionText s.teaching_log
      let is_correct := resp.is_correct
      let xp := resp.xp_earned.getD (if is_correct then 10 else 0)
      -- lines 720-725: stats and mastery update
      let concept2 := if is_correct
        then { concept1 with mastery_score := concept1.mastery_score + 1/4 } else concept1
      let attempted := s.stats.questions_attempted + 1
      let correct := s.stats.questions_correct + (if is_correct then 1 else 0)
      let s := { s with
        study_plan := setConcept s.study_plan idx concept2,
        stats := { s.stats with
          questions_attempted := attempted,
          questions_correct := correct,
          xp_earned := s.stats.xp_earned + xp,
          accuracy_rate := (correct : ℚ) / ((max 1 attempted : ℕ) : ℚ) } }
      let entry : TeachingLogEntry :=
        { concept_id := concept0.concept_id, entry_type := "assessment",
          ai_message := question_text, student_response := some answer,
          is_correct := some is_correct }
      let s := { s with teaching_log := s.teaching_log ++ [entry] }
      let s := addMessage s "assistant" resp.feedback
      -- line 749: progression branch
      if resp.next_action == "next_concept" ||
         (is_correct && decide (concept2.mastery_score ≥ 3/4)) then
        let concept3 := { concept2 with status := ConceptStatus.mastered }
        let sp := setConcept s.study_plan idx concept3
        let s := { s with
          study_plan := { sp with current_concept_index := idx + 1 },
          stats := { s.stats with
            concepts_mastered := s.stats.concepts_mastered + 1,
            xp_earned := s.stats.xp_earned + 20 } }
        if s.study_plan.concepts.length ≤ idx + 1 then
          let s := { s with current_phase := .wrapup }
          (s, { success := true, current_phase := .wrapup })
        else
          (s, { success := true, current_phase := s.current_phase })
      else if resp.next_action == "reteach" then
        let s := { s with current_phase := .reteach }
        (s, { success := true, current_phase := .reteach })
      else if resp.next_action == "give_hint" then
        let s := { s with stats := { s.stats with hints_used := s.stats.hints_used + 1 } }
        (s, { success := true, current_phase := s.current_phase })
      else if resp.next_action == "next_question" || resp.next_action == "retry" then
        let s := match resp.next_question with
          | some nq =>
            let e : TeachingLogEntry :=
              { concept_id := concept0.concept_id, entry_type := "check_understanding",
                ai_message := nq.question_text }
            { s with teaching_log := s.teaching_log ++ [e] }
          | none => s
        (s, { success := true, current_phase := s.current_phase })
      else
        (s, { success := true, current_phase := s.current_phase })

/-- Embeds `get_hint` (source lines 815-845): increments `hints_used` and saves. -/
def getHint (st : Session) : Session × APIResponse :=
  let s := { st with stats := { st.stats with hints_used := st.stats.hints_used + 1 } }
  (s, { success := true, current_phase := s.current_phase })


/-! ## Projection and list helper lemmas -/

@[simp] theorem addMessage_study_plan (s : Session) (r c : String) :
    (addMessage s r c).study_plan = s.study_plan := rfl

@[simp] theorem addMessage_stats (s : Session) (r c : String) :
    (addMessage s r c).stats = s.stats := rfl

@[simp] theorem addMessage_current_phase (s : Session) (r c : String) :
    (addMessage s r c).current_phase = s.current_phase := rfl

@[simp] theorem addMessage_diagnostic (s : Session) (r c : String) :
    (addMessage s r c).diagnostic = s.diagnostic := rfl

@[simp] theorem addMessage_teaching_log (s : Session) (r c : String) :
    (addMessage s r c).teaching_log = s.teaching_log := rfl

@[simp] theorem setConcept_current_concept_index (sp : StudyPlan) (i : ℕ) (c : ConceptPlan) :
    (setConcept sp i c).current_concept_index = sp.current_concept_index := rfl

theorem modifyAt_length (f : α → α) : ∀ (l : List α) (i : ℕ),
    (modifyAt l i f).length = l.length := by
  intro l
  induction l with
  | nil => intro i; cases i <;> rfl
  | cons a as ih =>
    intro i
    cases i with
    | zero => rfl
    | succ n => simpa [modifyAt] using ih n

@[simp] theorem setConcept_length (sp : StudyPlan) (i : ℕ) (c : ConceptPlan) :
    (setConcept sp i c).concepts.length = sp.concepts.length :=
  modifyAt_length _ sp.concepts i

theorem modifyAt_getElem_self (f : α → α) : ∀ (l : List α) (i : ℕ),
    (modifyAt l i f)[i]? = (l[i]?).map f := by
  intro l
  induction l with
  | nil => intro i; cases i <;> rfl
  | cons a as ih =>
    intro i
    cases i with
    | zero => simp [modifyAt]
    | succ n => simpa [modifyAt] using ih n

theorem setConcept_getElem_self (sp : StudyPlan) (i : ℕ) (c : ConceptPlan)
    (h : i < sp.concepts.length) : (setConcept sp i c).concepts[i]? = some c := by
  simp [setConcept, modifyAt_getElem_self, List.getElem?_eq_getElem h]

theorem practice_index_monotone (st : Session) (ans : String)
    (llm : Option PracticeEvalResponse) :
    st.study_plan.current_concept_index ≤
      ((submitPracticeAnswer st ans llm).1).study_plan.current_concept_index := by
  unfold submitPracticeAnswer
  cases hget : st.study_plan.concepts[st.study_plan.current_concept_index]? with
  | none => simp [hget, wrapUpSessionCore]
  | some c =>
    cases llm with
    | none => simp [hget]
    | some resp =>
      simp only [hget]
      split_ifs <;> (try split) <;> simp

/-! ## The stats invariant of claim C9 -/

/-- Invariant: `accuracy_rate` is the ratio of the stored counters (0 when nothing was
attempted). -/
def statsInv (s : SessionStats) : Prop :=
  s.accuracy_rate =
    if s.questions_attempted = 0 then 0
    else (s.questions_correct : ℚ) / (s.questions_attempted : ℚ)

/-! ## Concrete fixtures used by counterexamples and witnesses -/

def exampleConcept : ConceptPlan := { concept_id := "c1", name := "Fractions" }

def exampleConceptTried : ConceptPlan := { exampleConcept with attempts := 2 }

/-- A teaching-phase session whose single concept has mastery 0, attempts 0. -/
def practiceSession : Session :=
  { session_id := "s1", current_phase := .teaching,
    study_plan := { total_concepts := 1, concepts := [exampleConcept],
                    current_concept_index := 0 } }

/-- Same, but the concept already has 2 recorded attempts. -/
def retrySession : Session :=
  { practiceSession with
    study_plan := { total_concepts := 1, concepts := [exampleConceptTried],
                    current_concept_index := 0 } }

def nextConceptResp : PracticeEvalResponse :=
  { is_correct := false, next_action := "next_concept" }

def retryResp : PracticeEvalResponse :=
  { is_correct := false, next_action := "retry" }

def reteachResp : PracticeEvalResponse :=
  { is_correct := false, next_action := "reteach" }

def exampleDiagQuestion : DiagnosticQuestion :=
  { question_id := "q1", question_text := "2+2?", correct_answer := "4" }

/-- A diagnostic-phase session holding one recorded question. -/
def diagSession : Session :=
  { session_id := "s2", current_phase := .diagnostic,
    diagnostic := { status := .in_progress, questions := [exampleDiagQuestion] } }

/-- A diagnostic-phase session already at the question budget. -/
def fullDiagSession : Session :=
  { session_id := "s3", current_phase := .diagnostic,
    diagnostic := { status := .in_progress,
                    questions := List.replicate 6 exampleDiagQuestion } }

def diagResp : DiagEvalResponse :=
  { is_correct := true, feedback_to_student := "well done",
    next_question := some { question_id := "q9", question_text := "3+3?" } }

/-! ## Lemmas on the multiple-choice resolution loop -/

theorem mcResolveGo_no_match (correct : String) (l : List String)
    (h : ∀ o ∈ l, mcOptionMatches correct o = false) :
    ∀ i acc, mcResolveGo correct i acc l = acc := by
  induction l with
  | nil => intro i acc; rfl
  | cons o rest ih =>
    intro i acc
    have ho : mcOptionMatches correct o = false := h o (List.mem_cons_self o rest)
    have hrest : ∀ x ∈ rest, mcOptionMatches correct x = false :=
      fun x hx => h x (List.mem_cons_of_mem o hx)
    simp [mcResolveGo, ho, ih hrest]

theorem mcResolveGo_last_match (correct : String) :
    ∀ (l : List String) (k : ℕ) (opt : String), l[k]? = some opt →
      mcOptionMatches correct opt = true →
      (∀ o ∈ l.drop (k + 1), mcOptionMatches correct o = false) →
      ∀ i acc, mcResolveGo correct i acc l = optionId (i + k) := by
  intro l
  induction l with
  | nil => intro k opt hget; simp at hget
  | cons o rest ih =>
    intro k opt hget hmatch hafter i acc
    cases k with
    | zero =>
      simp at hget
      subst hget
      simp only [List.drop_succ_cons, List.drop_zero] at hafter
      simp [mcResolveGo, hmatch, mcResolveGo_no_match correct rest hafter]
    | succ k =>
      simp only [List.getElem?_cons_succ] at hget
      simp only [List.drop_succ_cons] at hafter
      have := ih k opt hget hmatch hafter (i + 1)
        (if mcOptionMatches correct o then optionId i else acc)
      simp only [mcResolveGo, this]
      congr 1
      omega

/-! ## Claims C5-C8 -/

/-- C5: for a numeric or equation question the checker returns correct
exactly when the submission parses to a value within `tolerance` of
`correct_answer`; an unparsable submission gives `(False, 0.0, ...)` rather
than an error; with target 4.0 and tolerance 0.01 every value in
[3.995, 4.005] is accepted and 4.02 is rejected. -/
theorem numeric_check_tolerance :
    (∀ (q : NumericQuestion) (ans : Option ℚ),
      ((checkNumeric q ans).1 = true ↔ ∃ v, ans = some v ∧ |v - q.correct_answer| ≤ q.tolerance))
    ∧ (∀ q : NumericQuestion, checkNumeric q none = (false, 0, q.correct_answer))
    ∧ (∀ v : ℚ, 3995/1000 ≤ v → v ≤ 4005/1000 →
        (checkNumeric { correct_answer := 4, tolerance := 1/100 } (some v)).1 = true)
    ∧ (checkNumeric { correct_answer := 4, tolerance := 1/100 } (some (402/100))).1 = false := by
  refine ⟨?_, ?_, ?_, ?_⟩
  · intro q ans
    cases ans with
    | none => simp [checkNumeric]
    | some v => simp [checkNumeric]
  · intro q; rfl
  · intro v h1 h2
    simp only [checkNumeric, decide_eq_true_eq]
    rw [abs_le]
    constructor <;> linarith
  · simp only [checkNumeric, decide_eq_false_iff_not]
    rw [abs_le]
    push_neg
    intro _
    norm_num

/-- C5 witness: the checker accepts 3.995 against target 4.0. -/
theorem numeric_check_tolerance_inst :
    (checkNumeric { correct_answer := 4, tolerance := 1/100 } (some (3995/1000))).1 = true :=
  numeric_check_tolerance.2.2.1 (3995/1000) (by norm_num) (by norm_num)

/-- C6 counterexample: the evaluator's boolean coercion and the normalizer's
truthy-token coercion are not the same function — they disagree on `"1"`. -/
theorem truthy_sets_disagree_on_one :
    tfCoerceAnswer "1" = true ∧ tfParseCorrect "1" = false := by
  decide

/-- C6 amended: the evaluator's coercion extends the normalizer's truthy-token
set `{true, yes, t}` by exactly the extra token `"1"`; the two agree on every
other string. -/
theorem evaluator_truthy_extends_normalizer (s : String) :
    tfCoerceAnswer s = (tfParseCorrect s || (Py.lower s == "1")) := by
  simp [tfCoerceAnswer, tfParseCorrect, Bool.or_assoc]

/-- C7 counterexample: option `"a) cat"` (id `a`) matches the declared answer
`"cat"`, yet the resolver returns `"b"` — the first matching option does not
win. -/
theorem mc_resolution_last_match_example :
    mcOptionMatches "cat" "a) cat" = true ∧
    optionId 0 = "a" ∧
    mcResolveCorrectId ["a) cat", "b) cat"] "cat" = "b" := by
  decide

/-- C7 amended: the resolver returns the id of the LAST option (in input
order) whose raw text starts with the first character of the declared
correct-answer string, or whose display text equals it case-insensitively,
or which contains it as a substring (the three criteria are a single
disjunction, not a priority order); it defaults to `"a"` when no option
matches. -/
theorem mc_resolution_last_match_wins (options : List String) (correct : String) :
    ((∀ o ∈ options, mcOptionMatches correct o = false) →
      mcResolveCorrectId options correct = "a")
    ∧ (∀ (k : ℕ) (opt : String), options[k]? = some opt →
        mcOptionMatches correct opt = true →
        (∀ o ∈ options.drop (k + 1), mcOptionMatches correct o = false) →
        mcResolveCorrectId options correct = optionId k) := by
  constructor
  · intro h
    exact mcResolveGo_no_match correct options h 0 "a"
  · intro k opt hget hm hafter
    have := mcResolveGo_last_match correct options k opt hget hm hafter 0 "a"
    simpa using this

/-- C7 witness: on `["a) cat", "b) cat"]` with answer `"cat"` the last match
is at index 1, and the resolver indeed returns its id. -/
theorem mc_resolution_last_match_wins_inst :
    mcResolveCorrectId ["a) cat", "b) cat"] "cat" = optionId 1 :=
  (mc_resolution_last_match_wins ["a) cat", "b) cat"] "cat").2 1 "b) cat"
    (by decide) (by decide) (by decide)

/-- C8 counterexample: a raw fill-blank question whose correct answer arrives
as the empty list normalizes to an empty `correct_answers`, and evaluating a
non-matching submission against it fails (the `correct_answers[0]` access
raises). -/
theorem fill_blank_empty_list_example :
    (fbNormalize (.list []) "q").correct_answers = [] ∧
    checkFillBlank (fbNormalize (.list []) "q") "x" = none := by
  constructor <;> rfl

/-- C8 amended: whenever the raw correct answer is a single string or a
non-empty list — i.e. anything except the empty list — the normalized
`correct_answers` is non-empty and evaluating any submission is total. -/
theorem fill_blank_nonempty_total (raw : StrOrList) (qt : String)
    (h : raw ≠ .list []) :
    (fbNormalize raw qt).correct_answers ≠ [] ∧
    ∀ ans, (checkFillBlank (fbNormalize raw qt) ans).isSome = true := by
  have hne : (fbNormalize raw qt).correct_answers ≠ [] := by
    cases raw with
    | str s => simp [fbNormalize, fbParseAnswers]
    | list l =>
      cases l with
      | nil => exact absurd rfl h
      | cons a as => simp [fbNormalize, fbParseAnswers]
  refine ⟨hne, fun ans => ?_⟩
  simp only [checkFillBlank]
  split
  · simp
  · split
    · next hnil => exact absurd hnil hne
    · simp

/-- C8 witness: a string-valued correct answer gives a total evaluation. -/
theorem fill_blank_nonempty_total_inst :
    (checkFillBlank (fbNormalize (.str "paris") "q") "x").isSome = true :=
  (fill_blank_nonempty_total (.str "paris") "q" (by decide)).2 "x"

/-! ## Claims C1 and C2 -/

/-- C1 counterexample: with the service suggesting `next_action =
"next_concept"` on an INCORRECT answer and mastery 0, the concept is still
marked mastered and `current_concept_index` still increases — the transition
is not conditional on (correct ∧ mastery ≥ 0.75), and the service's next-step
suggestion alone does cause it. -/
theorem mastered_on_service_suggestion_alone :
    nextConceptResp.is_correct = false ∧
    exampleConcept.mastery_score = 0 ∧
    ((submitPracticeAnswer practiceSession "x" (some nextConceptResp)).1).study_plan.current_concept_index = 1 ∧
    (∃ c', ((submitPracticeAnswer practiceSession "x" (some nextConceptResp)).1).study_plan.concepts[0]? = some c'
      ∧ c'.status = ConceptStatus.mastered) := by
  exact ⟨rfl, rfl, rfl, ⟨_, rfl, rfl⟩⟩

/-- C1 amended: `current_concept_index` never decreases, and on an evaluated
practice answer the current concept is marked mastered with the index
increased by exactly 1 iff EITHER the external service's `next_action`
suggestion is `"next_concept"` OR the answer was correct and the updated
mastery score is ≥ 0.75. -/
theorem mastered_transition_characterization :
    (∀ (st : Session) (ans : String) (llm : Option PracticeEvalResponse),
      st.study_plan.current_concept_index ≤
        ((submitPracticeAnswer st ans llm).1).study_plan.current_concept_index)
    ∧ ∀ (st : Session) (ans : String) (resp : PracticeEvalResponse) (concept : ConceptPlan),
      st.study_plan.concepts[st.study_plan.current_concept_index]? = some concept →
      ((((submitPracticeAnswer st ans (some resp)).1).study_plan.current_concept_index
          = st.study_plan.current_concept_index + 1) ↔
        (resp.next_action = "next_concept" ∨
          (resp.is_correct = true ∧ 3/4 ≤ concept.mastery_score + 1/4)))
      ∧ ((resp.next_action = "next_concept" ∨
          (resp.is_correct = true ∧ 3/4 ≤ concept.mastery_score + 1/4)) →
        ∃ c', ((submitPracticeAnswer st ans (some resp)).1).study_plan.concepts[st.study_plan.current_concept_index]? = some c'
          ∧ c'.status = ConceptStatus.mastered) := by
  refine ⟨practice_index_monotone, ?_⟩
  intro st ans resp concept hget
  have hlen : st.study_plan.current_concept_index < st.study_plan.concepts.length :=
    (List.getElem?_eq_some.mp hget).1
  unfold submitPracticeAnswer
  simp only [hget]
  cases hic : resp.is_correct with
  | true =>
    by_cases hm : (3 : ℚ)/4 ≤ concept.mastery_score + 4⁻¹
    · constructor
      · simp [hic, hm]
        all_goals (split_ifs <;> simp)
      · intro _
        simp only [hic]
        simp [hm]
        all_goals (split_ifs <;>
          exact ⟨_, setConcept_getElem_self _ _ _ (by simpa using hlen), rfl⟩)
    · by_cases hna : resp.next_action = "next_concept"
      · constructor
        · simp [hic, hna, hm]
          all_goals (split_ifs <;> simp)
        · intro _
          simp only [hic, hna]
          simp
          all_goals (split_ifs <;>
            exact ⟨_, setConcept_getElem_self _ _ _ (by simpa using hlen), rfl⟩)
      · constructor
        · simp [hic, hna, hm]
          all_goals ((try split_ifs) <;> (try split) <;> simp)
        · intro habs
          rcases habs with h | h
          · exact absurd h hna
          · have h2 := h.2
            rw [one_div] at h2
            exact absurd h2 hm
  | false =>
    have hic' : resp.is_correct = false := hic
    by_cases hna : resp.next_action = "next_concept"
    · constructor
      · simp [hic, hna]
        all_goals (split_ifs <;> simp)
      · intro _
        simp only [hic, hna]
        simp
        all_goals (split_ifs <;>
          exact ⟨_, setConcept_getElem_self _ _ _ (by simpa using hlen), rfl⟩)
    · constructor
      · simp [hic, hna, hic']
        all_goals ((try split_ifs) <;> (try split) <;> simp)
      · intro habs
        rcases habs with h | h
        · exact absurd h hna
        · simp [hic'] at h

/-- C1 witness: a concrete session on which the characterization applies —
the service's `next_concept` suggestion alone marks the concept mastered. -/
theorem mastered_transition_characterization_inst :
    ∃ c', ((submitPracticeAnswer practiceSession "x" (some nextConceptResp)).1).study_plan.concepts[practiceSession.study_plan.current_concept_index]? = some c'
      ∧ c'.status = ConceptStatus.mastered :=
  (mastered_transition_characterization.2 practiceSession "x" nextConceptResp exampleConcept rfl).2
    (Or.inl rfl)

/-- C2 counterexample: an incorrect answer whose attempt counter reaches 3
does NOT put the session in `reteach` when the service suggests `"retry"` —
the policy never consults the attempt counter. -/
theorem reteach_ignores_attempt_count_example :
    retryResp.is_correct = false ∧
    (∃ c', ((submitPracticeAnswer retrySession "x" (some retryResp)).1).study_plan.concepts[0]? = some c'
      ∧ c'.attempts = 3) ∧
    ((submitPracticeAnswer retrySession "x" (some retryResp)).1).current_phase = CurrentPhase.teaching := by
  exact ⟨rfl, ⟨_, rfl, rfl⟩, rfl⟩

/-- C2 amended: from the teaching phase, an evaluated practice answer moves
the session to `reteach` iff the external service's `next_action` is
`"reteach"` and the mastered branch does not fire; the per-concept attempt
counter plays no role in the decision. -/
theorem reteach_phase_characterization :
    ∀ (st : Session) (ans : String) (resp : PracticeEvalResponse) (concept : ConceptPlan),
      st.study_plan.concepts[st.study_plan.current_concept_index]? = some concept →
      st.current_phase = CurrentPhase.teaching →
      (((submitPracticeAnswer st ans (some resp)).1).current_phase = CurrentPhase.reteach ↔
        (resp.next_action = "reteach" ∧
          ¬(resp.is_correct = true ∧ 3/4 ≤ concept.mastery_score + 1/4))) := by
  intro st ans resp concept hget hphase
  unfold submitPracticeAnswer
  simp only [hget]
  cases hic : resp.is_correct with
  | true =>
    by_cases hm : (3 : ℚ)/4 ≤ concept.mastery_score + 4⁻¹
    · simp [hic, hm]
      all_goals (split_ifs <;> simp [hphase])
    · by_cases hna : resp.next_action = "next_concept"
      · simp [hic, hna, hm]
        all_goals (split_ifs <;> simp [hphase, hna])
      · simp [hic, hna, hm]
        all_goals ((try split_ifs) <;> (try split) <;> simp_all)
  | false =>
    have hic' : resp.is_correct = false := hic
    by_cases hna : resp.next_action = "next_concept"
    · simp [hic, hna, hic']
      all_goals (split_ifs <;> simp [hphase, hna, hic'])
    · simp [hic, hna, hic']
      all_goals ((try split_ifs) <;> (try split) <;> simp_all)

/-- C2 witness: the service's `reteach` suggestion alone (attempt counter
still below 3) moves the session to `reteach`. -/
theorem reteach_phase_characterization_inst :
    ((submitPracticeAnswer practiceSession "x" (some reteachResp)).1).current_phase = CurrentPhase.reteach :=
  (reteach_phase_characterization practiceSession "x" reteachResp exampleConcept rfl rfl).mpr
    ⟨rfl, by simp [reteachResp]⟩

/-! ## Claim C3: the diagnostic question budget -/

theorem submitDiag_questions_le (st : Session) (qid ans : String)
    (llm : Option DiagEvalResponse)
    (h : st.diagnostic.questions.length ≤ MAX_DIAGNOSTIC_QUESTIONS) :
    ((submitDiagnosticAnswer st qid ans llm).1).diagnostic.questions.length
      ≤ MAX_DIAGNOSTIC_QUESTIONS := by
  unfold submitDiagnosticAnswer
  cases llm with
  | none => simpa using h
  | some resp =>
    simp only [MAX_DIAGNOSTIC_QUESTIONS] at h
    cases hfi : findDiagIndex st.diagnostic.questions qid <;>
      cases hic : resp.is_correct <;>
      cases hcomp : resp.diagnostic_complete <;>
      simp only [hfi, hic, hcomp] <;>
      simp [modifyAt_length, MAX_DIAGNOSTIC_QUESTIONS] <;>
      (try split_ifs with hlen) <;>
      (try (rcases hq : resp.next_question with _ | nq <;> simp only [hq])) <;>
      (try simp [modifyAt_length]) <;>
      omega

theorem submitDiag_limit_phase (st : Session) (qid ans : String) (resp : DiagEvalResponse)
    (h : MAX_DIAGNOSTIC_QUESTIONS ≤ st.diagnostic.questions.length) :
    ((submitDiagnosticAnswer st qid ans (some resp)).1).current_phase
      = CurrentPhase.plan_generation := by
  unfold submitDiagnosticAnswer
  cases hfi : findDiagIndex st.diagnostic.questions qid <;>
    cases hic : resp.is_correct <;>
    simp only [hfi, hic] <;>
    simp [modifyAt_length, h]

/-- C3: a sequence of diagnostic submissions never pushes the number of
recorded questions above `MAX_DIAGNOSTIC_QUESTIONS` (each step records at
most one question, and a step that sees the budget full records none), and a
submission made when the budget is reached moves the session to
`plan_generation`. -/
theorem diagnostic_question_budget :
    (∀ (st : Session) (qid ans : String) (llm : Option DiagEvalResponse),
      st.diagnostic.questions.length ≤ MAX_DIAGNOSTIC_QUESTIONS →
      ((submitDiagnosticAnswer st qid ans llm).1).diagnostic.questions.length
        ≤ MAX_DIAGNOSTIC_QUESTIONS)
    ∧ (∀ (events : List (String × String × Option DiagEvalResponse)) (st : Session),
      st.diagnostic.questions.length ≤ MAX_DIAGNOSTIC_QUESTIONS →
      ((events.foldl (fun s e => (submitDiagnosticAnswer s e.1 e.2.1 e.2.2).1) st)).diagnostic.questions.length
        ≤ MAX_DIAGNOSTIC_QUESTIONS)
    ∧ (∀ (st : Session) (qid ans : String) (resp : DiagEvalResponse),
      MAX_DIAGNOSTIC_QUESTIONS ≤ st.diagnostic.questions.length →
      ((submitDiagnosticAnswer st qid ans (some resp)).1).current_phase
        = CurrentPhase.plan_generation) := by
  refine ⟨submitDiag_questions_le, ?_, submitDiag_limit_phase⟩
  intro events
  induction events with
  | nil => intro st h; simpa using h
  | cons e rest ih =>
    intro st h
    exact ih _ (submitDiag_questions_le st e.1 e.2.1 e.2.2 h)

/-- C3 witness: a session already holding 6 recorded questions stays at 6
after a further submission proposing yet another question, and the session
moves to `plan_generation`. -/
theorem diagnostic_question_budget_inst :
    ((([("q1", "a", some diagResp)] : List (String × String × Option DiagEvalResponse)).foldl
        (fun s e => (submitDiagnosticAnswer s e.1 e.2.1 e.2.2).1) fullDiagSession)).diagnostic.questions.length
      ≤ MAX_DIAGNOSTIC_QUESTIONS ∧
    ((submitDiagnosticAnswer fullDiagSession "q1" "a" (some diagResp)).1).current_phase
      = CurrentPhase.plan_generation :=
  ⟨diagnostic_question_budget.2.1 _ fullDiagSession (by decide),
   diagnostic_question_budget.2.2 fullDiagSession "q1" "a" diagResp (by decide)⟩

/-! ## Claim C4: service failure leaves the persisted record unchanged -/

/-- C4 counterexample: `wrap_up_session` is a core operation that does NOT
keep the persisted record at its pre-request value when the reasoning call
fails — it persists the transition to `wrapup` and reports success with no
error. -/
theorem wrapup_persists_on_service_failure :
    practiceSession.current_phase = CurrentPhase.teaching ∧
    ((wrapUpSession practiceSession false).1).current_phase = CurrentPhase.wrapup ∧
    (wrapUpSession practiceSession false).2.success = true ∧
    (wrapUpSession practiceSession false).2.error = none :=
  ⟨rfl, rfl, rfl, rfl⟩

/-- C4 amended: for the five generation-gated operations (`start_diagnostic`,
`submit_diagnostic_answer`, `generate_study_plan`, `start_teaching_concept`
and `submit_practice_answer` — the latter two when a current concept exists),
a failed or unparsable reasoning-service call leaves the persisted session
record exactly at its pre-request value and yields a failure response
carrying an error; `wrap_up_session` is the exception recorded in the
counterexample. -/
theorem service_failure_leaves_state_unchanged :
    (∀ st : Session, (startDiagnostic st none).1 = st ∧
      (startDiagnostic st none).2.success = false ∧
      (startDiagnostic st none).2.error.isSome = true)
    ∧ (∀ (st : Session) (qid ans : String), (submitDiagnosticAnswer st qid ans none).1 = st ∧
      (submitDiagnosticAnswer st qid ans none).2.success = false ∧
      (submitDiagnosticAnswer st qid ans none).2.error.isSome = true)
    ∧ (∀ st : Session, (generateStudyPlan st none).1 = st ∧
      (generateStudyPlan st none).2.success = false ∧
      (generateStudyPlan st none).2.error.isSome = true)
    ∧ (∀ st : Session, st.study_plan.current_concept_index < st.study_plan.concepts.length →
      (startTeachingConcept st none).1 = st ∧
      (startTeachingConcept st none).2.success = false ∧
      (startTeachingConcept st none).2.error.isSome = true)
    ∧ (∀ (st : Session) (ans : String),
      st.study_plan.current_concept_index < st.study_plan.concepts.length →
      (submitPracticeAnswer st ans none).1 = st ∧
      (submitPracticeAnswer st ans none).2.success = false ∧
      (submitPracticeAnswer st ans none).2.error.isSome = true) := by
  refine ⟨fun st => ⟨rfl, rfl, rfl⟩, fun st qid ans => ⟨rfl, rfl, rfl⟩,
    fun st => ⟨rfl, rfl, rfl⟩, ?_, ?_⟩
  · intro st h
    have hc : st.study_plan.concepts[st.study_plan.current_concept_index]?
        = some st.study_plan.concepts[st.study_plan.current_concept_index] :=
      List.getElem?_eq_getElem h
    have hne : st.study_plan.concepts.isEmpty = false := by
      simp [List.isEmpty_iff]
      exact List.ne_nil_of_length_pos (by omega)
    unfold startTeachingConcept
    simp [hne, hc]
  · intro st ans h
    have hc : st.study_plan.concepts[st.study_plan.current_concept_index]?
        = some st.study_plan.concepts[st.study_plan.current_concept_index] :=
      List.getElem?_eq_getElem h
    unfold submitPracticeAnswer
    simp [hc]

/-- C4 witness: with one concept in progress, a failed evaluation call leaves
the persisted session untouched and the response is a failure. -/
theorem service_failure_leaves_state_unchanged_inst :
    (submitPracticeAnswer practiceSession "x" none).1 = practiceSession ∧
    (submitPracticeAnswer practiceSession "x" none).2.success = false :=
  ⟨(service_failure_leaves_state_unchanged.2.2.2.2 practiceSession "x" (by decide)).1,
   (service_failure_leaves_state_unchanged.2.2.2.2 practiceSession "x" (by decide)).2.1⟩

/-! ## Claim C9: the accuracy-rate invariant -/

/-- C9: after every stats update — `SessionManager.update_stats` as well as
the inline updates performed by the diagnostic and practice submission paths,
the hint path and wrap-up — `accuracy_rate` equals
`questions_correct / questions_attempted`, and equals 0 while
`questions_attempted = 0`. -/
theorem accuracy_rate_invariant :
    (∀ (st : Session) (da dc dh : ℕ) (dxp : ℤ),
      statsInv st.stats → statsInv (updateStats st da dc dh dxp).stats)
    ∧ (∀ (st : Session) (qid ans : String) (llm : Option DiagEvalResponse),
      statsInv st.stats → statsInv ((submitDiagnosticAnswer st qid ans llm).1).stats)
    ∧ (∀ (st : Session) (ans : String) (llm : Option PracticeEvalResponse),
      statsInv st.stats → statsInv ((submitPracticeAnswer st ans llm).1).stats)
    ∧ (∀ st : Session, statsInv st.stats → statsInv (getHint st).1.stats)
    ∧ (∀ (st : Session) (ok : Bool), statsInv st.stats → statsInv (wrapUpSession st ok).1.stats) := by
  have hmax : ∀ a : ℕ, max 1 (a + 1) = a + 1 := fun a => by omega
  refine ⟨?_, ?_, ?_, ?_, ?_⟩
  · intro st da dc dh dxp h
    unfold updateStats statsInv
    unfold statsInv at h
    by_cases ha : 0 < st.stats.questions_attempted + da
    · have hne : ¬(st.stats.questions_attempted + da = 0) := by omega
      simp [ha, hne]
    · have hda : st.stats.questions_attempted + da = 0 := by omega
      have h1 : st.stats.questions_attempted = 0 := by omega
      have h2 : da = 0 := by omega
      simp [ha, hda, h2]
      simpa [h1] using h
  · intro st qid ans llm h
    unfold submitDiagnosticAnswer
    cases llm with
    | none => simpa using h
    | some resp =>
      cases hfi : findDiagIndex st.diagnostic.questions qid <;>
        simp only [hfi] <;>
        split_ifs <;>
        (try split) <;>
        simp [statsInv, hmax]
  · intro st ans llm h
    unfold submitPracticeAnswer
    cases hget : st.study_plan.concepts[st.study_plan.current_concept_index]? with
    | none => simpa [hget, wrapUpSessionCore] using h
    | some c =>
      cases llm with
      | none => simpa [hget] using h
      | some resp =>
        simp only [hget]
        split_ifs <;>
          (try split) <;>
          simp [statsInv, hmax]
  · intro st h
    simpa [getHint, statsInv] using h
  · intro st ok h
    simpa [wrapUpSession, wrapUpSessionCore, statsInv] using h

/-- C9 witness: the invariant is preserved on a concrete update. -/
theorem accuracy_rate_invariant_inst :
    statsInv (updateStats practiceSession 1 1 0 0).stats :=
  accuracy_rate_invariant.1 practiceSession 1 1 0 0 (by simp [statsInv, practiceSession])

/-! ## Claim C10: unknown diagnostic question id falls back -/

theorem findIdx_eq_none_of_unknown (qs : List DiagnosticQuestion) (qid : String)
    (h : ∀ q ∈ qs, q.question_id ≠ qid) :
    qs.findIdx? (fun q => q.question_id == qid) = none := by
  rw [List.findIdx?_eq_none_iff]
  intro q hq
  simp [h q hq]

/-- C10: submitting a diagnostic answer whose `question_id` matches no
recorded question does not fail: the most recently recorded question is
treated as the one being answered, an empty correct answer is used when no
questions exist at all, and the response is a success either way. -/
theorem diagnostic_unknown_question_fallback :
    ∀ (st : Session) (qid ans : String) (resp : DiagEvalResponse),
      (∀ q ∈ st.diagnostic.questions, q.question_id ≠ qid) →
      ((submitDiagnosticAnswer st qid ans (some resp)).2.success = true)
      ∧ (st.diagnostic.questions ≠ [] →
          findDiagIndex st.diagnostic.questions qid
            = some (st.diagnostic.questions.length - 1))
      ∧ (st.diagnostic.questions = [] →
          findDiagIndex st.diagnostic.questions qid = none ∧
          diagEvalCorrectAnswer st qid = "") := by
  intro st qid ans resp h
  have hnone := findIdx_eq_none_of_unknown st.diagnostic.questions qid h
  refine ⟨?_, ?_, ?_⟩
  · unfold submitDiagnosticAnswer
    cases hfi : findDiagIndex st.diagnostic.questions qid <;>
      simp only [hfi] <;> split_ifs <;> (try split) <;> rfl
  · intro hne
    unfold findDiagIndex
    rw [hnone]
    simp [List.isEmpty_iff, hne]
  · intro hnil
    have hfdi : findDiagIndex st.diagnostic.questions qid = none := by
      unfold findDiagIndex
      rw [hnone]
      simp [hnil]
    refine ⟨hfdi, ?_⟩
    unfold diagEvalCorrectAnswer
    rw [hfdi]

/-- C10 witness: an unknown question id against a session holding one
question still yields a success and resolves to that last question. -/
theorem diagnostic_unknown_question_fallback_inst :
    (submitDiagnosticAnswer diagSession "zz" "ans" (some diagResp)).2.success = true ∧
    findDiagIndex diagSession.diagnostic.questions "zz" = some 0 :=
  ⟨(diagnostic_unknown_question_fallback diagSession "zz" "ans" diagResp (by decide)).1,
   by simpa using (diagnostic_unknown_question_fallback diagSession "zz" "ans" diagResp
     (by decide)).2.1 (by decide)⟩

end AITutor
